import Mathlib
namespace BioGate
/-!
Verification development for the BioGate biometric access-control simulation
(`main.py`).  The Python source is shallowly embedded: pure functions become
Lean functions over `ℝ` (Python floats are modelled as real numbers, with
`round(x, k)` modelled as rounding to the nearest multiple of `10⁻ᵏ`),
stateful controller code becomes explicit state passing on a `SystemState`
record, the global pseudo-random stream becomes an explicit parameter
`g : ℕ → ℝ` of uniform draws (consumed by index), and code that can raise an
exception returns `Option`.
-/
/-! ### Rounding (Python `round(x, k)` on our real-number model) -/
/-- Model of Python `round(x, k)`: round to the nearest multiple of `10⁻ᵏ`.
(Python uses ties-to-even on binary floats; ties never arise at the rational
inputs used in this development, so the tie-breaking rule is immaterial.) -/
noncomputable def pyround (k : ℕ) (x : ℝ) : ℝ := (round (x * 10 ^ k) : ℤ) / 10 ^ k
/-- Source `round(x, 4)` as used by `calculate_biometric_match`. -/
noncomputable def round4 (x : ℝ) : ℝ := pyround 4 x
/-- Source `round(x, 6)` as used by `generate_biometric`. -/
noncomputable def round6 (x : ℝ) : ℝ := pyround 6 x
/-! ### `BiometricGenerator.calculate_biometric_match` (main.py lines 182-194) -/
/-- Source `sum((a - b) ** 2 for a, b in zip(bio1, bio2))`. -/
noncomputable def sq_dist (bio1 bio2 : List ℝ) : ℝ :=
  ((bio1.zip bio2).map (fun p => (p.1 - p.2) ^ 2)).sum
/-- Source `calculate_biometric_match(bio1, bio2)`.

Returns `some 0` when the lengths differ; on two empty vectors the Python code
evaluates `0.0 / 0.0` (`distance / max_distance` with
`max_distance = len(bio1) ** 0.5 = 0.0`) and raises `ZeroDivisionError`,
modelled as `none`; otherwise returns
`round(max(0, 1 - distance / max_distance), 4)`. -/
noncomputable def calculate_biometric_match (bio1 bio2 : List ℝ) : Option ℝ :=
  if bio1.length ≠ bio2.length then some 0
  else if bio1.length = 0 then none
  else some (round4 (max 0 (1 - Real.sqrt (sq_dist bio1 bio2) / Real.sqrt (bio1.length : ℝ))))
/-! ### `BiometricGenerator.generate_biometric` (main.py lines 171-174)

The shared pseudo-random source is modelled as a stream `g : ℕ → ℝ` of
uniform draws in `[0, 1)`, consumed by index. -/
/-- Source `[round(random.random(), 6) for _ in range(10)]` with draws `g 0 … g 9`. -/
noncomputable def generate_biometric_vec (g : ℕ → ℝ) : List ℝ :=
  (List.range 10).map (fun i => round6 (g i))
/-! ### `BiometricGenerator.generate_user_id` / `generate_device_id`
(main.py lines 145-169)

The candidate drawn at attempt `i` is modelled by a stream (`draw i`), and the
`uuid.uuid4()` string of the fallback path by an explicit parameter. -/
/-- Source `generate_user_id(existing_ids)`: return the first of up to 1000 drawn
candidates not in `existing_ids`; on exhaustion fall back to
`str(uuid.uuid4())[:8].upper()` (unchecked against `existing_ids`). -/
def generate_user_id (existing_ids : List String) (draw : ℕ → String) (uuid : String) :
    String :=
  match (List.range 1000).find? (fun i => !(existing_ids.contains (draw i))) with
  | some i => draw i
  | none => String.mk ((uuid.data.take 8).map Char.toUpper)
/-- Source `generate_device_id(existing_ids)`: candidates are `"DEV" + str(randint)`;
fallback is `"DEV" + str(uuid.uuid4())[:4].upper()` (unchecked). -/
def generate_device_id (existing_ids : List String) (draw : ℕ → ℕ) (uuid : String) :
    String :=
  match (List.range 1000).find? (fun i => !(existing_ids.contains ("DEV" ++ toString (draw i)))) with
  | some i => "DEV" ++ toString (draw i)
  | none => "DEV" ++ String.mk ((uuid.data.take 4).map Char.toUpper)
/-! ### `InputValidator` (main.py lines 312-358) -/
/-- Python `str.strip()`: drop leading and trailing whitespace. -/
def pystrip (s : String) : String :=
  ⟨((s.data.dropWhile Char.isWhitespace).reverse.dropWhile Char.isWhitespace).reverse⟩
/-- Source `validate_user_id`: nonempty, 6 characters after strip, alphanumeric.
(Python `str.isalnum` is Unicode-aware; ids in this system are ASCII.) -/
def validate_user_id (user_id : String) : Bool :=
  if user_id = "" then false
  else if (pystrip user_id).length ≠ 6 then false
  else (pystrip user_id).data.all Char.isAlphanum
/-- Source `validate_device_id`: nonempty, starts with `"DEV"`, 7 characters after
strip, 4 digits after the prefix. -/
def validate_device_id (device_id : String) : Bool :=
  if device_id = "" then false
  else if (pystrip device_id).data.take 3 ≠ "DEV".data then false
  else if (pystrip device_id).length ≠ 7 then false
  else ((pystrip device_id).data.drop 3).all Char.isDigit
/-- Source `validate_rate(rate, rate_name)`: accept exactly the values in `[0, 1]`.
(The Python `float(rate)` parse failure for non-numeric text is outside this
model, whose input is already a number.) -/
noncomputable def validate_rate (rate : ℝ) (rate_name : String) : Except String ℝ :=
  if 0 ≤ rate ∧ rate ≤ 1 then Except.ok rate
  else Except.error (rate_name ++ " must be between 0.0 and 1.0")
/-! ### `SecurityLogger` (main.py lines 82-140) -/
/-- One entry of `SecurityLogger.logs`. -/
structure LogEntry where
  time : String
  user : String
  device : String
  result : String
  notes : String
  deriving Repr, DecidableEq
/-- Source `log_event`: append one entry (the timestamp is an input of the model). -/
def log_event (logs : List LogEntry) (now user_id device_id result notes : String) :
    List LogEntry :=
  logs ++ [{ time := now, user := user_id, device := device_id, result := result,
             notes := notes }]
/-- One filtering pass of `get_filtered_logs`: Python tests `if filter_x:`,
so a missing filter (`None`) and an empty string are both skipped. -/
def filter_step (logs : List LogEntry) (f : Option String) (proj : LogEntry → String) :
    List LogEntry :=
  match f with
  | none => logs
  | some s => if s = "" then logs else logs.filter (fun e => proj e == s)
/-- Source `get_filtered_logs(filter_user, filter_device, filter_result)`. -/
def get_filtered_logs (logs : List LogEntry)
    (filter_user filter_device filter_result : Option String) : List LogEntry :=
  filter_step (filter_step (filter_step logs filter_user (·.user))
    filter_device (·.device)) filter_result (·.result)
/-- Truth value of "entry field matches the filter" for a supplied, non-empty
filter; an absent filter matches everything. -/
def matches_filter (f : Option String) (s : String) : Bool :=
  match f with
  | none => true
  | some v => s == v
/-! ### Python dict model

`self.users`, `self.devices` and the statistics map are Python dicts keyed by
strings; they are modelled as insertion-ordered association lists with
dict-update semantics (overwrite in place when the key exists, append
otherwise). -/
def alist_lookup {α : Type} (m : List (String × α)) (k : String) : Option α :=
  (m.find? (fun p => p.1 == k)).map (·.2)
def alist_set {α : Type} (m : List (String × α)) (k : String) (v : α) :
    List (String × α) :=
  if m.any (fun p => p.1 == k) then m.map (fun p => if p.1 == k then (k, v) else p)
  else m ++ [(k, v)]
/-! ### Stored records (the dict shapes held in `self.users` / `self.devices`) -/
/-- The dict produced by `BiometricUser.to_dict` (and read back from JSON).
`original_biometric` is `none` when the key is absent — `to_dict` omits it
when the attribute is falsy (Python `None` or an empty list). -/
structure StoredUser where
  name : String
  bio_type : String
  bio_hash : String
  enrollment_date : String
  access_attempts : ℕ
  original_biometric : Option (List ℝ)
/-- The dict produced by `BiometricDevice.to_dict`. The status strings used by
the program are `"Active"` and `"Under Attack"`. -/
structure StoredDevice where
  name : String
  status : String
  deriving Repr, DecidableEq
/-- The mutable state coordinated by `BioGateController`: users, devices, the
security log, and the statistics counters (`defaultdict(int)` semantics). -/
structure SystemState where
  users : List (String × StoredUser)
  devices : List (String × StoredDevice)
  logs : List LogEntry
  stats : List (String × ℕ)
/-- Source `StatisticsManager.increment_stat`: absent counters read as zero. -/
def increment_stat (stats : List (String × ℕ)) (stat_name : String) : List (String × ℕ) :=
  alist_set stats stat_name ((alist_lookup stats stat_name).getD 0 + 1)
/-! ### `AuthenticationEngine` (main.py lines 360-392) -/
structure AuthenticationEngine where
  biometric_threshold : ℝ
  auth_success_rate : ℝ
/-- Source `update_threshold`: a bare assignment, no validation. -/
def update_threshold (e : AuthenticationEngine) (new_threshold : ℝ) : AuthenticationEngine :=
  { e with biometric_threshold := new_threshold }
/-- Source `update_auth_rate`: a bare assignment, no validation. -/
def update_auth_rate (e : AuthenticationEngine) (new_rate : ℝ) : AuthenticationEngine :=
  { e with auth_success_rate := new_rate }
/-- The settings-change flow for the threshold (`configure_settings`, choice 3):
`validate_rate` first, `update_threshold` only on success, engine untouched on
failure. The `Bool` reports whether the update was applied. -/
noncomputable def set_threshold_checked (e : AuthenticationEngine) (rate : ℝ) :
    AuthenticationEngine × Bool :=
  match validate_rate rate "Biometric match threshold" with
  | Except.ok v => (update_threshold e v, true)
  | Except.error _ => (e, false)
/-- The settings-change flow for the success rate (`configure_settings`,
choice 1). -/
noncomputable def set_auth_rate_checked (e : AuthenticationEngine) (rate : ℝ) :
    AuthenticationEngine × Bool :=
  match validate_rate rate "Authentication success rate" with
  | Except.ok v => (update_auth_rate e v, true)
  | Except.error _ => (e, false)
/-- Source `AuthenticationEngine.authenticate_user(user, device, is_attack)`.

`stored_attr` is the value of the Python attribute test
`hasattr(user, 'original_biometric') and user.original_biometric`:
`some stored` when the attribute exists, `none` when it does not; a present
but falsy value (`None` or `[]`) also selects the fallback branch.

Draws: `g 0 … g 9` build the probe template, `g 10` is the
`random.random()` gate draw.  A `ZeroDivisionError` escaping
`calculate_biometric_match` propagates as `none`. -/
noncomputable def engine_authenticate (e : AuthenticationEngine)
    (stored_attr : Option (List ℝ)) (is_attack : Bool) (g : ℕ → ℝ) :
    Option (Bool × ℝ) :=
  match stored_attr with
  | some stored =>
    if stored = [] then
      some ((!is_attack) && decide (g 10 < e.auth_success_rate), 0)
    else
      match calculate_biometric_match stored (generate_biometric_vec g) with
      | none => none
      | some match_score =>
        some (decide (e.biometric_threshold ≤ match_score)
              && decide (g 10 < e.auth_success_rate), match_score)
  | none => some ((!is_attack) && decide (g 10 < e.auth_success_rate), 0)
/-! ### `AttackSimulator` (main.py lines 394-413) -/
/-- Source `random.choice(self.attack_types)` over the fixed three-element list,
driven by one uniform draw. -/
noncomputable def pick_attack (u : ℝ) : String :=
  if u < 1 / 3 then "Unauthorized Access"
  else if u < 2 / 3 then "Firmware Tampering"
  else "Network Intrusion"
/-! ### `BioGateController` (main.py lines 467-590) -/
/-- The `if self.original_biometric:` truthiness test in
`BiometricUser.to_dict`: the key is written only when the attribute holds a
non-`None`, nonempty list. -/
noncomputable def to_dict_ob (ob : Option (List ℝ)) : Option (List ℝ) :=
  match ob with
  | none => none
  | some l => if l = [] then none else some l
/-- The user record stored by `enroll_user` (main.py lines 516-520):
`bio_data = generate_biometric()`, `bio_hash = hash_biometric(bio_data)`
(the SHA-256 content fingerprint, modelled by the parameter `h`), then
`set_original_biometric(bio_data)` and `to_dict()`. -/
noncomputable def enrolled_user_record (h : List ℝ → String) (name bio_type now : String)
    (g : ℕ → ℝ) : StoredUser :=
  { name := name
    bio_type := bio_type
    bio_hash := h (generate_biometric_vec g)
    enrollment_date := now
    access_attempts := 0
    original_biometric := to_dict_ob (some (generate_biometric_vec g)) }
/-- The backfill in `load_system_data` (main.py lines 492-495): a loaded user
record lacking the `original_biometric` key gets a freshly generated template
(`fresh`); records that have the key are left untouched. -/
def ensure_original_biometric (fresh : List ℝ) (u : StoredUser) : StoredUser :=
  match u.original_biometric with
  | none => { u with original_biometric := some fresh }
  | some _ => u
/-- The value of `hasattr(user, 'original_biometric')` inside
`AuthenticationEngine.authenticate_user` when the controller passes
`self.users[user_id]`: that value is a plain dict (`to_dict()` output or a
JSON object), and dict keys are not attributes, so `hasattr` is `False` and
the attribute test yields nothing — whatever the record stores. -/
def dict_attr (_ : StoredUser) : Option (List ℝ) := none
/-- Structured form of the strings returned by
`BioGateController.authenticate_user`. -/
inductive AuthResult where
  | invalidUser (msg : String)
  | invalidDevice (msg : String)
  | userNotFound
  | deviceNotFound
  | blocked (attack_type : String)
  | attackAlert (attack_type : String)
  | success (score : ℝ)
  | failure (score : ℝ)
  | crashed
/-- Source `BioGateController.authenticate_user(user_id, device_id, is_attack)`
(main.py lines 531-590).

Parameters beyond the Python signature: the engine configuration `e`, the
attack-detection rate `dr`, the wall-clock timestamp `now`, the system state
`st`, and the random stream `g` (attack path: `g 0` drives `random.choice`,
`g 1` the detection roll; normal path: `g 0 … g 10` feed the engine).
Persistence (`save_system_data`) is the external collaborator and is not part
of the state model. -/
noncomputable def controller_authenticate (e : AuthenticationEngine) (dr : ℝ)
    (now : String) (st : SystemState) (user_id device_id : String) (is_attack : Bool)
    (g : ℕ → ℝ) : AuthResult × SystemState :=
  if validate_user_id user_id = false then
    (.invalidUser "bad user id", st)
  else if validate_device_id device_id = false then
    (.invalidDevice "bad device id", st)
  else
    match alist_lookup st.users user_id with
    | none =>
      (.userNotFound,
        { st with
            logs := log_event st.logs now user_id device_id "Failed" "User not found"
            stats := increment_stat st.stats "failed_authentications" })
    | some u =>
      match alist_lookup st.devices device_id with
      | none =>
        (.deviceNotFound,
          { st with
              logs := log_event st.logs now user_id device_id "Failed" "Device not found"
              stats := increment_stat st.stats "failed_authentications" })
      | some d =>
        let d1 : StoredDevice :=
          if d.status = "Under Attack" then { d with status := "Active" } else d
        let st1 : SystemState :=
          if d.status = "Under Attack" then
            { st with devices := alist_set st.devices device_id { d with status := "Active" } }
          else st
        if is_attack then
          if g 1 < dr then
            (.blocked (pick_attack (g 0)),
              { st1 with
                  logs := log_event st1.logs now user_id device_id "Blocked" "Attack detected"
                  stats := increment_stat st1.stats "attacks_blocked" })
          else
            (.attackAlert (pick_attack (g 0)),
              { st1 with
                  stats := increment_stat st1.stats "attacks_succeeded"
                  devices := alist_set st1.devices device_id { d1 with status := "Under Attack" }
                  logs := log_event st1.logs now "SYSTEM" device_id "Attack"
                    (pick_attack (g 0) ++ " on " ++ d1.name) })
        else
          match engine_authenticate e (dict_attr u) is_attack g with
          | none => (.crashed, st1)
          | some (succ, match_score) =>
            if succ then
              (.success match_score,
                { st1 with
                    devices := alist_set st1.devices device_id { d1 with status := "Active" }
                    logs := log_event st1.logs now user_id device_id "Success"
                      "Authentication successful"
                    stats := increment_stat st1.stats "successful_authentications" })
            else
              (.failure match_score,
                { st1 with
                    logs := log_event st1.logs now user_id device_id "Failed"
                      "Biometric mismatch"
                    stats := increment_stat st1.stats "failed_authentications" })
/-! ### A concrete enrolled scenario, used by witnesses and counterexamples -/
/-- A random stream that always draws `1/4`. -/
noncomputable def gQ : ℕ → ℝ := fun _ => (1 : ℝ) / 4
/-- The template generated from `gQ`: ten times `1/4`. -/
noncomputable def bio0 : List ℝ := (List.range 10).map (fun _ => (1 : ℝ) / 4)
/-- The concrete enrolled user record of the scenario. -/
noncomputable def u0 : StoredUser :=
  { name := "Alice", bio_type := "Face", bio_hash := "fingerprint-of-bio0",
    enrollment_date := "2024-01-01 00:00:00", access_attempts := 0,
    original_biometric := some bio0 }
def d0 : StoredDevice := { name := "IoT Device DEV1000", status := "Active" }
def dUA : StoredDevice := { name := "IoT Device DEV1000", status := "Under Attack" }
/-- Scenario state: one enrolled user, one active device. -/
noncomputable def st0 : SystemState :=
  { users := [("ABC123", u0)], devices := [("DEV1000", d0)], logs := [], stats := [] }
/-- Scenario state with the device already under attack. -/
noncomputable def stUA : SystemState :=
  { users := [("ABC123", u0)], devices := [("DEV1000", dUA)], logs := [], stats := [] }
/-- The reference engine configuration (`biometric_threshold=0.6`,
`auth_success_rate=0.8`). -/
noncomputable def e0 : AuthenticationEngine :=
  { biometric_threshold := 6 / 10, auth_success_rate := 8 / 10 }
/-- A uniform draw very close to 1: `0.9999999 ∈ [0, 1)`, yet
`round(0.9999999, 6) = 1.0`. -/
noncomputable def gBad : ℕ → ℝ := fun _ => (9999999 : ℝ) / 10000000
/-- An exclusion set that traps the UUID fallback of `generate_user_id`. -/
def exC6 : List String := ["AAAAAA", "AAAAAAAA"]
def entry1 : LogEntry :=
  { time := "t1", user := "U1", device := "D1", result := "Success", notes := "n1" }
def entry2 : LogEntry :=
  { time := "t2", user := "U2", device := "D1", result := "Failed", notes := "n2" }

/-! ## Theorems: helper lemmas, then the claim theorems -/

theorem pyround_zero (k : ℕ) : pyround k 0 = 0 := by
  simp [pyround]
theorem pyround_one (k : ℕ) : pyround k 1 = 1 := by
  have h : ((1 : ℝ) * 10 ^ k) = ((10 ^ k : ℤ) : ℝ) := by push_cast; ring
  have hne : ((10 : ℝ) ^ k) ≠ 0 := by positivity
  rw [pyround, h, round_intCast]
  push_cast
  exact div_self hne
theorem pyround_mono {k : ℕ} {x y : ℝ} (h : x ≤ y) : pyround k x ≤ pyround k y := by
  have hp : (0 : ℝ) < 10 ^ k := by positivity
  have hr : round (x * 10 ^ k) ≤ round (y * 10 ^ k) := by
    rw [round_eq, round_eq]
    exact Int.floor_mono (by nlinarith)
  rw [pyround, pyround]
  exact (div_le_div_iff_of_pos_right hp).2 (by exact_mod_cast hr)
theorem pyround_nonneg {k : ℕ} {x : ℝ} (h : 0 ≤ x) : 0 ≤ pyround k x :=
  calc (0 : ℝ) = pyround k 0 := (pyround_zero k).symm
    _ ≤ pyround k x := pyround_mono h
theorem pyround_le_one {k : ℕ} {x : ℝ} (h : x ≤ 1) : pyround k x ≤ 1 :=
  calc pyround k x ≤ pyround k 1 := pyround_mono h
    _ = 1 := pyround_one k
/-- Evaluation rule: when `x * 10ᵏ` is an integer `n`, `pyround k x = n / 10ᵏ`. -/
theorem pyround_eval {k : ℕ} {x : ℝ} {n : ℤ} (h : x * 10 ^ k = (n : ℝ)) :
    pyround k x = (n : ℝ) / 10 ^ k := by
  rw [pyround, h, round_intCast]
theorem sq_dist_nil_left (b : List ℝ) : sq_dist [] b = 0 := by
  simp [sq_dist]
theorem sq_dist_comm (a b : List ℝ) : sq_dist a b = sq_dist b a := by
  induction a generalizing b with
  | nil => cases b <;> simp [sq_dist]
  | cons x xs ih =>
    cases b with
    | nil => simp [sq_dist]
    | cons y ys =>
      have := ih ys
      simp only [sq_dist, List.zip_cons_cons, List.map_cons, List.sum_cons] at this ⊢
      rw [this]
      ring_nf
theorem sq_dist_self (v : List ℝ) : sq_dist v v = 0 := by
  induction v with
  | nil => simp [sq_dist]
  | cons x xs ih =>
    simp only [sq_dist, List.zip_cons_cons, List.map_cons, List.sum_cons] at ih ⊢
    rw [ih]
    ring_nf
/-- Mismatched lengths always give score `some 0`. -/
theorem calculate_biometric_match_ne_length {a b : List ℝ} (h : a.length ≠ b.length) :
    calculate_biometric_match a b = some 0 := by
  simp [calculate_biometric_match, h]
/-- Both empty: the Python code raises `ZeroDivisionError`, modelled `none`. -/
theorem calculate_biometric_match_nil : calculate_biometric_match ([] : List ℝ) [] = none := by
  simp [calculate_biometric_match]
/-- Equal nonzero length: the score is the rounded clamped similarity. -/
theorem calculate_biometric_match_eq_length {a b : List ℝ} (h : a.length = b.length)
    (ha : a ≠ []) :
    calculate_biometric_match a b =
      some (round4 (max 0 (1 - Real.sqrt (sq_dist a b) / Real.sqrt (a.length : ℝ)))) := by
  have hlen : a.length ≠ 0 := by
    intro h0
    exact ha (List.length_eq_zero.mp h0)
  unfold calculate_biometric_match
  rw [if_neg (by simp [h]), if_neg hlen]
/-- The similarity of a vector with itself is exactly `1`, provided the vector
is nonempty (on the empty vector the code raises). -/
theorem calculate_biometric_match_self {v : List ℝ} (hv : v ≠ []) :
    calculate_biometric_match v v = some 1 := by
  rw [calculate_biometric_match_eq_length rfl hv, sq_dist_self, Real.sqrt_zero, zero_div,
    sub_zero]
  have hmax : max (0 : ℝ) 1 = 1 := by norm_num
  rw [hmax, round4, pyround_one]
/-- Any score the function actually returns lies in `[0, 1]`. -/
theorem calculate_biometric_match_mem_unit {a b : List ℝ} {r : ℝ}
    (h : calculate_biometric_match a b = some r) : 0 ≤ r ∧ r ≤ 1 := by
  by_cases hl : a.length = b.length
  · by_cases ha : a = []
    · subst ha
      have hb : b = [] := List.length_eq_zero.mp hl.symm
      subst hb
      rw [calculate_biometric_match_nil] at h
      cases h
    · rw [calculate_biometric_match_eq_length hl ha] at h
      have hr : r = round4 (max 0 (1 - Real.sqrt (sq_dist a b) / Real.sqrt (a.length : ℝ))) :=
        (Option.some_injective _ h).symm
      subst hr
      constructor
      · exact pyround_nonneg (le_max_left _ _)
      · apply pyround_le_one
        have hd : 0 ≤ Real.sqrt (sq_dist a b) / Real.sqrt (a.length : ℝ) :=
          div_nonneg (Real.sqrt_nonneg _) (Real.sqrt_nonneg _)
        have h1 : 1 - Real.sqrt (sq_dist a b) / Real.sqrt (a.length : ℝ) ≤ 1 := by linarith
        exact max_le (by norm_num) h1
  · rw [calculate_biometric_match_ne_length hl] at h
    have hr : r = 0 := (Option.some_injective _ h).symm
    subst hr
    norm_num
/-- The match score is symmetric in its two arguments (including the
error case on two empty vectors). -/
theorem calculate_biometric_match_comm (a b : List ℝ) :
    calculate_biometric_match a b = calculate_biometric_match b a := by
  by_cases hl : a.length = b.length
  · by_cases ha : a.length = 0
    · have hb : b.length = 0 := hl ▸ ha
      have ha' : a = [] := List.length_eq_zero.mp ha
      have hb' : b = [] := List.length_eq_zero.mp hb
      subst ha'
      subst hb'
      rfl
    · have hb : b.length ≠ 0 := fun h => ha (hl.trans h)
      have ha' : a ≠ [] := fun h => ha (by simp [h])
      have hb' : b ≠ [] := fun h => hb (by simp [h])
      rw [calculate_biometric_match_eq_length hl ha',
        calculate_biometric_match_eq_length hl.symm hb', sq_dist_comm, hl]
  · rw [calculate_biometric_match_ne_length hl,
      calculate_biometric_match_ne_length (Ne.symm hl)]
theorem generate_biometric_vec_length (g : ℕ → ℝ) : (generate_biometric_vec g).length = 10 := by
  simp [generate_biometric_vec]
theorem generate_biometric_vec_ne_nil (g : ℕ → ℝ) : generate_biometric_vec g ≠ [] := by
  intro h
  have := generate_biometric_vec_length g
  rw [h] at this
  simp at this
theorem find?_map_set_of_any {α : Type} {m : List (String × α)} {k : String} (v : α)
    (h : m.any (fun p => p.1 == k) = true) :
    ((m.map (fun p => if p.1 == k then (k, v) else p)).find? (fun p => p.1 == k))
      = some (k, v) := by
  induction m with
  | nil => simp at h
  | cons p t ih =>
    cases hp : (p.1 == k) with
    | true => simp [List.find?, hp]
    | false =>
      have ht : t.any (fun p => p.1 == k) = true := by
        simpa [hp] using h
      simpa [List.find?, hp] using ih ht
theorem map_set_of_not_any {α : Type} {m : List (String × α)} {k : String} (v : α)
    (h : m.any (fun p => p.1 == k) = false) :
    m.map (fun p => if p.1 == k then (k, v) else p) = m := by
  induction m with
  | nil => rfl
  | cons p t ih =>
    simp only [List.any_cons, Bool.or_eq_false_iff] at h
    rw [List.map_cons, ih h.2]
    congr 1
    exact if_neg (by simp [h.1])
theorem any_map_set {α : Type} (m : List (String × α)) (k : String) (v : α) :
    ((m.map (fun p => if p.1 == k then (k, v) else p)).any (fun p => p.1 == k))
      = m.any (fun p => p.1 == k) := by
  induction m with
  | nil => rfl
  | cons p t ih =>
    cases hp : (p.1 == k) with
    | true =>
      rw [List.map_cons, List.any_cons, List.any_cons, if_pos hp, hp]
      simp
    | false =>
      rw [List.map_cons, List.any_cons, List.any_cons, if_neg (by simp [hp]), hp, ih]
theorem find?_append_of_not_any {α : Type} {m : List (String × α)} {k : String} (v : α)
    (h : m.any (fun p => p.1 == k) = false) :
    ((m ++ [(k, v)]).find? (fun p => p.1 == k)) = some (k, v) := by
  induction m with
  | nil => simp [List.find?]
  | cons p t ih =>
    simp only [List.any_cons, Bool.or_eq_false_iff] at h
    simp only [List.cons_append, List.find?, h.1]
    exact ih h.2
/-- Updating key `k` then looking it up yields the new value. -/
theorem alist_lookup_set_self {α : Type} (m : List (String × α)) (k : String) (v : α) :
    alist_lookup (alist_set m k v) k = some v := by
  by_cases h : m.any (fun p => p.1 == k) = true
  · rw [alist_lookup, alist_set, if_pos h, find?_map_set_of_any v h]
    rfl
  · have h' : m.any (fun p => p.1 == k) = false := by
      cases hx : m.any (fun p => p.1 == k) with
      | true => exact absurd hx h
      | false => rfl
    rw [alist_lookup, alist_set, if_neg h, find?_append_of_not_any v h']
    rfl
/-- Two successive updates of the same key collapse to the second one. -/
theorem alist_set_set {α : Type} (m : List (String × α)) (k : String) (v w : α) :
    alist_set (alist_set m k v) k w = alist_set m k w := by
  by_cases h : m.any (fun p => p.1 == k) = true
  · have hinner : alist_set m k v = m.map (fun p => if p.1 == k then (k, v) else p) := by
      rw [alist_set, if_pos h]
    have hmap : ((m.map (fun p => if p.1 == k then (k, v) else p)).any
        (fun p => p.1 == k)) = true := by
      rw [any_map_set]
      exact h
    rw [hinner, alist_set, if_pos hmap, List.map_map, alist_set, if_pos h]
    apply List.map_congr_left
    intro p _
    cases hp : (p.1 == k) <;> simp [Function.comp, hp]
  · have h' : m.any (fun p => p.1 == k) = false := by
      cases hx : m.any (fun p => p.1 == k) with
      | true => exact absurd hx h
      | false => rfl
    have hinner : alist_set m k v = m ++ [(k, v)] := by
      rw [alist_set, if_neg h]
    have happ : ((m ++ [(k, v)]).any (fun p => p.1 == k)) = true := by
      simp [List.any_append]
    rw [hinner, alist_set, if_pos happ, alist_set, if_neg h, List.map_append,
      map_set_of_not_any w h']
    simp
theorem controller_attack_detected (e : AuthenticationEngine) (dr : ℝ) (now : String)
    (st : SystemState) (uid did : String) (u : StoredUser) (d : StoredDevice) (g : ℕ → ℝ)
    (hv1 : validate_user_id uid = true) (hv2 : validate_device_id did = true)
    (hu : alist_lookup st.users uid = some u) (hd : alist_lookup st.devices did = some d)
    (hdet : g 1 < dr) :
    controller_authenticate e dr now st uid did true g =
      (.blocked (pick_attack (g 0)),
        { users := st.users
          devices := if d.status = "Under Attack"
            then alist_set st.devices did { name := d.name, status := "Active" }
            else st.devices
          logs := log_event st.logs now uid did "Blocked" "Attack detected"
          stats := increment_stat st.stats "attacks_blocked" }) := by
  unfold controller_authenticate
  rw [hv1, hv2, hu, hd]
  simp only [Bool.true_eq_false, if_false, hdet, if_true]
  by_cases hs : d.status = "Under Attack" <;> simp [hs]
theorem controller_attack_undetected (e : AuthenticationEngine) (dr : ℝ) (now : String)
    (st : SystemState) (uid did : String) (u : StoredUser) (d : StoredDevice) (g : ℕ → ℝ)
    (hv1 : validate_user_id uid = true) (hv2 : validate_device_id did = true)
    (hu : alist_lookup st.users uid = some u) (hd : alist_lookup st.devices did = some d)
    (hdet : ¬ g 1 < dr) :
    controller_authenticate e dr now st uid did true g =
      (.attackAlert (pick_attack (g 0)),
        { users := st.users
          devices := alist_set st.devices did { name := d.name, status := "Under Attack" }
          logs := log_event st.logs now "SYSTEM" did "Attack"
            (pick_attack (g 0) ++ " on " ++ d.name)
          stats := increment_stat st.stats "attacks_succeeded" }) := by
  unfold controller_authenticate
  rw [hv1, hv2, hu, hd]
  simp only [Bool.true_eq_false, if_false, hdet, if_true]
  by_cases hs : d.status = "Under Attack" <;> simp [hs, alist_set_set]
theorem controller_normal_path (e : AuthenticationEngine) (dr : ℝ) (now : String)
    (st : SystemState) (uid did : String) (u : StoredUser) (d : StoredDevice) (g : ℕ → ℝ)
    (hv1 : validate_user_id uid = true) (hv2 : validate_device_id did = true)
    (hu : alist_lookup st.users uid = some u) (hd : alist_lookup st.devices did = some d) :
    controller_authenticate e dr now st uid did false g =
      if g 10 < e.auth_success_rate then
        (.success 0,
          { users := st.users
            devices := alist_set st.devices did { name := d.name, status := "Active" }
            logs := log_event st.logs now uid did "Success" "Authentication successful"
            stats := increment_stat st.stats "successful_authentications" })
      else
        (.failure 0,
          { users := st.users
            devices := if d.status = "Under Attack"
              then alist_set st.devices did { name := d.name, status := "Active" }
              else st.devices
            logs := log_event st.logs now uid did "Failed" "Biometric mismatch"
            stats := increment_stat st.stats "failed_authentications" }) := by
  unfold controller_authenticate engine_authenticate dict_attr
  rw [hv1, hv2, hu, hd]
  by_cases hg : g 10 < e.auth_success_rate
  all_goals
    simp only [Bool.true_eq_false, if_false]
    by_cases hs : d.status = "Under Attack" <;> simp [hs, hg, alist_set_set]
/-- No branch of `authenticate_user` ever touches the user map: enrolled user
records (in particular their `bio_hash` and `original_biometric` fields) are
read-only for authentication. -/
theorem controller_users_preserved (e : AuthenticationEngine) (dr : ℝ) (now : String)
    (st : SystemState) (uid did : String) (atk : Bool) (g : ℕ → ℝ) :
    (controller_authenticate e dr now st uid did atk g).2.users = st.users := by
  unfold controller_authenticate
  repeat' split
  all_goals rfl
theorem round6_quarter : round6 ((1 : ℝ) / 4) = 1 / 4 := by
  have h : ((1 : ℝ) / 4) * 10 ^ 6 = ((250000 : ℤ) : ℝ) := by norm_num
  rw [round6, pyround_eval h]
  norm_num
theorem generate_biometric_vec_gQ : generate_biometric_vec gQ = bio0 := by
  unfold generate_biometric_vec bio0 gQ
  apply List.map_congr_left
  intro i _
  exact round6_quarter
theorem bio0_ne_nil : bio0 ≠ [] := by
  intro h
  have : bio0.length = 10 := by simp [bio0]
  rw [h] at this
  simp at this
theorem validate_user_id_ok : validate_user_id "ABC123" = true := rfl
theorem validate_device_id_ok : validate_device_id "DEV1000" = true := rfl
theorem lookup_u0 : alist_lookup st0.users "ABC123" = some u0 := rfl
theorem lookup_d0 : alist_lookup st0.devices "DEV1000" = some d0 := rfl
theorem lookup_uUA : alist_lookup stUA.users "ABC123" = some u0 := rfl
theorem lookup_dUA : alist_lookup stUA.devices "DEV1000" = some dUA := rfl
theorem round6_gBad : round6 ((9999999 : ℝ) / 10000000) = 1 := by
  have h : ((9999999 : ℝ) / 10000000) * 10 ^ 6 = 9999999 / 10 := by norm_num
  rw [round6, pyround, h, round_eq]
  have hf : ⌊(9999999 : ℝ) / 10 + 1 / 2⌋ = 1000000 := by
    apply Int.floor_eq_iff.mpr
    constructor <;> norm_num
  rw [hf]
  norm_num
theorem cbm_isSome_of_left_ne_nil {a : List ℝ} (b : List ℝ) (ha : a ≠ []) :
    ∃ r, calculate_biometric_match a b = some r := by
  by_cases hl : a.length = b.length
  · exact ⟨_, calculate_biometric_match_eq_length hl ha⟩
  · exact ⟨0, calculate_biometric_match_ne_length hl⟩
/-- A single filtering pass with a filter that is absent or non-empty equals
a `List.filter` by `matches_filter`. -/
theorem filter_step_eq (logs : List LogEntry) (f : Option String) (proj : LogEntry → String)
    (hf : f ≠ some "") :
    filter_step logs f proj = logs.filter (fun e => matches_filter f (proj e)) := by
  cases f with
  | none => simp [filter_step, matches_filter]
  | some s =>
    have hs : s ≠ "" := fun h => hf (by rw [h])
    simp [filter_step, matches_filter, hs]
/-- C1: claimed — on a normal authentication call for an enrolled user on an
existing device, the score embedded in the Success/Failed result equals the
similarity of the stored template and the probe.  The code disagrees: the
controller hands the engine the user's dict, `hasattr(dict,
'original_biometric')` is `False`, so the legacy fallback runs and the
embedded score is always `0.0` — even when the record stores a template. -/
theorem C1_score_always_zero (e : AuthenticationEngine) (dr : ℝ) (now : String)
    (st : SystemState) (uid did : String) (u : StoredUser) (d : StoredDevice)
    (bio : List ℝ) (g : ℕ → ℝ)
    (hv1 : validate_user_id uid = true) (hv2 : validate_device_id did = true)
    (hu : alist_lookup st.users uid = some u) (hd : alist_lookup st.devices did = some d)
    (_hbio : u.original_biometric = some bio) (_hne : bio ≠ []) :
    (controller_authenticate e dr now st uid did false g).1 = .success 0 ∨
    (controller_authenticate e dr now st uid did false g).1 = .failure 0 := by
  rw [controller_normal_path e dr now st uid did u d g hv1 hv2 hu hd]
  by_cases hg : g 10 < e.auth_success_rate
  · left
    rw [if_pos hg]
  · right
    rw [if_neg hg]
/-- C1 witness: in the concrete enrolled scenario the stored template and the
freshly generated probe are identical (similarity exactly `1`), yet the result
score is `0`. -/
theorem C1_score_always_zero_witness :
    ((controller_authenticate e0 (7 / 10) "t" st0 "ABC123" "DEV1000" false gQ).1
        = .success 0 ∨
     (controller_authenticate e0 (7 / 10) "t" st0 "ABC123" "DEV1000" false gQ).1
        = .failure 0) ∧
    calculate_biometric_match bio0 (generate_biometric_vec gQ) = some 1 := by
  constructor
  · exact C1_score_always_zero e0 (7 / 10) "t" st0 "ABC123" "DEV1000" u0 d0 bio0 gQ
      validate_user_id_ok validate_device_id_ok lookup_u0 lookup_d0 rfl bio0_ne_nil
  · rw [generate_biometric_vec_gQ]
    exact calculate_biometric_match_self bio0_ne_nil
/-- C2: after enrollment the stored record's `bio_hash` is the content
fingerprint of its `original_biometric`; the persistence backfill leaves such
a record untouched; and no authentication call ever rewrites the user map. -/
theorem C2_bio_hash_invariant (h : List ℝ → String) (name bio_type now : String)
    (g : ℕ → ℝ) (fresh : List ℝ) :
    (∃ bio, (enrolled_user_record h name bio_type now g).original_biometric = some bio ∧
      (enrolled_user_record h name bio_type now g).bio_hash = h bio) ∧
    ensure_original_biometric fresh (enrolled_user_record h name bio_type now g)
      = enrolled_user_record h name bio_type now g ∧
    ∀ (e : AuthenticationEngine) (dr : ℝ) (now2 : String) (st : SystemState)
      (uid did : String) (atk : Bool) (g2 : ℕ → ℝ),
      (controller_authenticate e dr now2 st uid did atk g2).2.users = st.users := by
  have hob : (enrolled_user_record h name bio_type now g).original_biometric
      = some (generate_biometric_vec g) := by
    unfold enrolled_user_record to_dict_ob
    simp [generate_biometric_vec_ne_nil g]
  refine ⟨⟨generate_biometric_vec g, hob, rfl⟩, ?_, ?_⟩
  · unfold ensure_original_biometric
    rw [hob]
  · intro e dr now2 st uid did atk g2
    exact controller_users_preserved e dr now2 st uid did atk g2
/-- C3: claimed for all vectors — score `0.0` on length mismatch, otherwise
`round(max(0, 1 - d/√n), 4) ∈ [0, 1]`.  True except on two empty vectors,
where the code raises `ZeroDivisionError` instead of returning a value;
this theorem is the amended form (equal nonzero length). -/
theorem C3_similarity_formula (a b : List ℝ) :
    (a.length ≠ b.length → calculate_biometric_match a b = some 0) ∧
    (a.length = b.length → a ≠ [] →
      calculate_biometric_match a b =
        some (round4 (max 0 (1 - Real.sqrt (sq_dist a b) / Real.sqrt (a.length : ℝ)))) ∧
      ∀ r, calculate_biometric_match a b = some r → 0 ≤ r ∧ r ≤ 1) := by
  refine ⟨calculate_biometric_match_ne_length, fun hl ha => ?_⟩
  exact ⟨calculate_biometric_match_eq_length hl ha,
    fun _ hr => calculate_biometric_match_mem_unit hr⟩
/-- C3 witness: a one-dimensional pair with distance 1 evaluates to the
formula, and a length mismatch evaluates to score `0`. -/
theorem C3_similarity_formula_witness :
    calculate_biometric_match [(0 : ℝ)] [1] =
      some (round4 (max 0 (1 - Real.sqrt (sq_dist [(0 : ℝ)] [1]) /
        Real.sqrt (([(0 : ℝ)].length : ℝ))))) ∧
    calculate_biometric_match [(0 : ℝ)] [] = some 0 := by
  constructor
  · exact ((C3_similarity_formula [(0 : ℝ)] [1]).2 rfl (by simp)).1
  · exact (C3_similarity_formula [(0 : ℝ)] []).1 (by simp)
/-- C3 counterexample: two empty vectors have equal lengths, but the code
returns no score at all (`ZeroDivisionError`), so the claimed "always returns
a value in `[0, 1]`" fails. -/
theorem C3_counterexample :
    ([] : List ℝ).length = ([] : List ℝ).length ∧
    calculate_biometric_match ([] : List ℝ) [] = none :=
  ⟨rfl, calculate_biometric_match_nil⟩
/-- C4: the engine accepts exactly when the score clears the threshold and the
uniform draw clears the success rate; with no stored template it falls back to
"not an attack and draw clears the rate" with score `0.0`. -/
theorem C4_engine_gate (e : AuthenticationEngine) (g : ℕ → ℝ) (is_attack : Bool) :
    (∀ stored : List ℝ, stored ≠ [] →
      ∃ b ms, engine_authenticate e (some stored) is_attack g = some (b, ms) ∧
        calculate_biometric_match stored (generate_biometric_vec g) = some ms ∧
        (b = true ↔ (e.biometric_threshold ≤ ms ∧ g 10 < e.auth_success_rate))) ∧
    (∃ b, engine_authenticate e none is_attack g = some (b, 0) ∧
      (b = true ↔ (is_attack = false ∧ g 10 < e.auth_success_rate))) := by
  constructor
  · intro stored hne
    obtain ⟨r, hr⟩ := cbm_isSome_of_left_ne_nil (generate_biometric_vec g) hne
    refine ⟨decide (e.biometric_threshold ≤ r) && decide (g 10 < e.auth_success_rate),
      r, ?_, hr, ?_⟩
    · simp only [engine_authenticate]
      rw [if_neg hne, hr]
    · simp [Bool.and_eq_true, decide_eq_true_eq]
  · refine ⟨(!is_attack) && decide (g 10 < e.auth_success_rate), rfl, ?_⟩
    simp [Bool.and_eq_true, decide_eq_true_eq, Bool.not_eq_true']
/-- C4 witness: the template branch at the concrete enrolled scenario. -/
theorem C4_engine_gate_witness :
    ∃ b ms, engine_authenticate e0 (some bio0) false gQ = some (b, ms) ∧
      calculate_biometric_match bio0 (generate_biometric_vec gQ) = some ms ∧
      (b = true ↔ (e0.biometric_threshold ≤ ms ∧ gQ 10 < e0.auth_success_rate)) :=
  (C4_engine_gate e0 gQ false).1 bio0 bio0_ne_nil
/-- C5 (amended): on the attack path, a detected attack leaves the device with
status `"Active"` — equal to its pre-call status only when the device was
already Active, since the pre-branch reset turns `"Under Attack"` into
`"Active"` first — logs one "Blocked" entry and bumps `attacks_blocked`; an
undetected attack sets the device `"Under Attack"`, logs one "Attack" entry
attributed to `"SYSTEM"` and bumps `attacks_succeeded`; both branches are
terminal and never touch the biometric-match machinery. -/
theorem C5_attack_path (e : AuthenticationEngine) (dr : ℝ) (now : String)
    (st : SystemState) (uid did : String) (u : StoredUser) (d : StoredDevice) (g : ℕ → ℝ)
    (hv1 : validate_user_id uid = true) (hv2 : validate_device_id did = true)
    (hu : alist_lookup st.users uid = some u) (hd : alist_lookup st.devices did = some d) :
    (g 1 < dr →
      controller_authenticate e dr now st uid did true g =
        (.blocked (pick_attack (g 0)),
          { users := st.users
            devices := if d.status = "Under Attack"
              then alist_set st.devices did { name := d.name, status := "Active" }
              else st.devices
            logs := log_event st.logs now uid did "Blocked" "Attack detected"
            stats := increment_stat st.stats "attacks_blocked" })) ∧
    (¬ g 1 < dr →
      controller_authenticate e dr now st uid did true g =
        (.attackAlert (pick_attack (g 0)),
          { users := st.users
            devices := alist_set st.devices did { name := d.name, status := "Under Attack" }
            logs := log_event st.logs now "SYSTEM" did "Attack"
              (pick_attack (g 0) ++ " on " ++ d.name)
            stats := increment_stat st.stats "attacks_succeeded" })) :=
  ⟨fun hdet => controller_attack_detected e dr now st uid did u d g hv1 hv2 hu hd hdet,
   fun hdet => controller_attack_undetected e dr now st uid did u d g hv1 hv2 hu hd hdet⟩
/-- C5 witness: detected attack in the concrete scenario (draw `1/4 < 7/10`). -/
theorem C5_attack_path_witness :
    controller_authenticate e0 (7 / 10) "t" st0 "ABC123" "DEV1000" true gQ =
      (.blocked (pick_attack (gQ 0)),
        { users := st0.users
          devices := if d0.status = "Under Attack"
            then alist_set st0.devices "DEV1000" { name := d0.name, status := "Active" }
            else st0.devices
          logs := log_event st0.logs "t" "ABC123" "DEV1000" "Blocked" "Attack detected"
          stats := increment_stat st0.stats "attacks_blocked" }) :=
  (C5_attack_path e0 (7 / 10) "t" st0 "ABC123" "DEV1000" u0 d0 gQ
    validate_user_id_ok validate_device_id_ok lookup_u0 lookup_d0).1
    (by norm_num [gQ])
/-- C5 counterexample: a device that enters the call `"Under Attack"` comes
out `"Active"` even on the detected branch — the claimed "device status is
left unchanged" fails. -/
theorem C5_counterexample :
    (alist_lookup stUA.devices "DEV1000").map StoredDevice.status = some "Under Attack" ∧
    (alist_lookup
      (controller_authenticate e0 (7 / 10) "t" stUA "ABC123" "DEV1000" true gQ).2.devices
      "DEV1000").map StoredDevice.status = some "Active" := by
  refine ⟨rfl, ?_⟩
  rw [controller_attack_detected e0 (7 / 10) "t" stUA "ABC123" "DEV1000" u0 dUA gQ
    validate_user_id_ok validate_device_id_ok lookup_uUA lookup_dUA (by norm_num [gQ])]
  have hs : dUA.status = "Under Attack" := rfl
  simp only [hs, if_pos]
  rw [alist_lookup_set_self]
  rfl
/-- C6 (amended): the generators never return a member of the exclusion set
provided at least one of the 1000 sampled candidates escapes the set; the
exhaustion fallback is returned unchecked. -/
theorem C6_no_collision_before_exhaustion (existing : List String)
    (draw : ℕ → String) (drawD : ℕ → ℕ) (uuidU uuidD : String)
    (hU : ∃ i, i < 1000 ∧ existing.contains (draw i) = false)
    (hD : ∃ i, i < 1000 ∧ existing.contains ("DEV" ++ toString (drawD i)) = false) :
    generate_user_id existing draw uuidU ∉ existing ∧
    generate_device_id existing drawD uuidD ∉ existing := by
  constructor
  · obtain ⟨i, hi, hc⟩ := hU
    have hne : (List.range 1000).find? (fun i => !(existing.contains (draw i))) ≠ none := by
      intro hnone
      have := List.find?_eq_none.mp hnone i (List.mem_range.mpr hi)
      rw [hc] at this
      simp at this
    cases hfind : (List.range 1000).find? (fun i => !(existing.contains (draw i))) with
    | none => exact absurd hfind hne
    | some j =>
      have hp := List.find?_some hfind
      have hcj : existing.contains (draw j) = false := by
        cases hx : existing.contains (draw j) with
        | false => rfl
        | true => rw [hx] at hp; cases hp
      unfold generate_user_id
      rw [hfind]
      simpa using hcj
  · obtain ⟨i, hi, hc⟩ := hD
    have hne : (List.range 1000).find?
        (fun i => !(existing.contains ("DEV" ++ toString (drawD i)))) ≠ none := by
      intro hnone
      have := List.find?_eq_none.mp hnone i (List.mem_range.mpr hi)
      rw [hc] at this
      simp at this
    cases hfind : (List.range 1000).find?
        (fun i => !(existing.contains ("DEV" ++ toString (drawD i)))) with
    | none => exact absurd hfind hne
    | some j =>
      have hp := List.find?_some hfind
      have hcj : existing.contains ("DEV" ++ toString (drawD j)) = false := by
        cases hx : existing.contains ("DEV" ++ toString (drawD j)) with
        | false => rfl
        | true => rw [hx] at hp; cases hp
      unfold generate_device_id
      rw [hfind]
      simpa using hcj
/-- C6 witness: with a fresh candidate available on the first attempt, the
returned user id (and device id) avoid the exclusion set. -/
theorem C6_no_collision_before_exhaustion_witness :
    generate_user_id ["AAAAAA"] (fun _ => "BBBBBB") "u" ∉ ["AAAAAA"] ∧
    generate_device_id ["AAAAAA"] (fun _ => 1234) "u" ∉ ["AAAAAA"] :=
  C6_no_collision_before_exhaustion ["AAAAAA"] (fun _ => "BBBBBB") (fun _ => 1234) "u" "u"
    ⟨0, by norm_num, by decide⟩ ⟨0, by norm_num, by decide⟩
/-- C6 counterexample: when all 1000 draws collide and the UUID fallback's
uppercased 8-character prefix happens to lie in the exclusion set, the
function returns a member of that set. -/
theorem C6_counterexample :
    generate_user_id exC6 (fun _ => "AAAAAA") "aaaaaaaa-0000" ∈ exC6 := by
  have hfind : (List.range 1000).find?
      (fun i => !(exC6.contains ((fun _ : ℕ => "AAAAAA") i))) = none := by
    apply List.find?_eq_none.mpr
    intro a _
    show ¬(!exC6.contains "AAAAAA") = true
    decide
  unfold generate_user_id
  rw [hfind]
  decide
/-- C7 (amended): the settings-change flow (validator before mutator) rejects
every rate outside `[0, 1]` and leaves the engine untouched, and applies every
in-range rate exactly; the raw mutators themselves perform no validation. -/
theorem C7_checked_settings (e : AuthenticationEngine) (r : ℝ) :
    (¬ (0 ≤ r ∧ r ≤ 1) →
      set_threshold_checked e r = (e, false) ∧ set_auth_rate_checked e r = (e, false)) ∧
    ((0 ≤ r ∧ r ≤ 1) →
      set_threshold_checked e r = (update_threshold e r, true) ∧
      set_auth_rate_checked e r = (update_auth_rate e r, true)) := by
  by_cases h : 0 ≤ r ∧ r ≤ 1 <;>
    simp [set_threshold_checked, set_auth_rate_checked, validate_rate, h]
/-- C7 witness: the out-of-range rate `3/2` is rejected by the checked flow
and the engine is unchanged. -/
theorem C7_checked_settings_witness :
    set_threshold_checked e0 (3 / 2) = (e0, false) ∧
    set_auth_rate_checked e0 (3 / 2) = (e0, false) :=
  (C7_checked_settings e0 (3 / 2)).1 (by norm_num)
/-- C7 counterexample: the mutator itself (`update_threshold`) silently
accepts the out-of-range value `3/2` and changes the configuration — the
claimed "the mutators reject any input outside `[0,1]` … and leave the
configuration unchanged" fails for the mutators as implemented. -/
theorem C7_counterexample :
    update_threshold e0 (3 / 2) =
      { biometric_threshold := 3 / 2, auth_success_rate := 8 / 10 } ∧
    ¬ ((3 / 2 : ℝ) ≤ 1) :=
  ⟨rfl, by norm_num⟩
/-- C8 (amended): with no filters the query returns the log unchanged; with
any combination of supplied non-empty filters it returns exactly the entries
matching all of them, preserving order (a supplied empty-string filter is
Python-falsy and is skipped instead of matched). -/
theorem C8_filter_semantics (logs : List LogEntry) (fu fd fr : Option String) :
    (fu ≠ some "" → fd ≠ some "" → fr ≠ some "" →
      get_filtered_logs logs fu fd fr = logs.filter (fun e =>
        matches_filter fr e.result && matches_filter fd e.device &&
          matches_filter fu e.user)) ∧
    get_filtered_logs logs none none none = logs := by
  constructor
  · intro h1 h2 h3
    unfold get_filtered_logs
    rw [filter_step_eq logs fu _ h1, filter_step_eq _ fd _ h2, filter_step_eq _ fr _ h3,
      List.filter_filter, List.filter_filter]
  · rfl
/-- C8 witness: the fully filtered query over a two-entry log equals the
conjunctive filter, evaluated at the concrete entries. -/
theorem C8_filter_semantics_witness :
    get_filtered_logs [entry1, entry2] (some "U1") (some "D1") (some "Success") =
      [entry1, entry2].filter (fun e =>
        matches_filter (some "Success") e.result && matches_filter (some "D1") e.device &&
          matches_filter (some "U1") e.user) ∧
    get_filtered_logs [entry1, entry2] (some "U1") (some "D1") (some "Success") =
      [entry1] := by
  constructor
  · exact (C8_filter_semantics [entry1, entry2] (some "U1") (some "D1") (some "Success")).1
      (by simp) (by simp) (by simp)
  · rfl
/-- C8 counterexample: supplying the empty string as the user filter returns
an entry whose user is not the empty string — the filter is skipped, not
applied, so "returns exactly the entries matching ALL supplied filters"
fails. -/
theorem C8_counterexample :
    get_filtered_logs [entry1] (some "") none none = [entry1] ∧ entry1.user ≠ "" :=
  ⟨rfl, by decide⟩
/-- C9 (amended): self-similarity is exactly `1` for every nonempty vector
(the empty vector raises instead), and similarity is symmetric for all pairs. -/
theorem C9_identity_symmetry :
    (∀ v : List ℝ, v ≠ [] → calculate_biometric_match v v = some 1) ∧
    (∀ a b : List ℝ, calculate_biometric_match a b = calculate_biometric_match b a) :=
  ⟨fun _ hv => calculate_biometric_match_self hv, calculate_biometric_match_comm⟩
/-- C9 witness: self-similarity `1` at a concrete nonempty vector, and
symmetry at a concrete pair. -/
theorem C9_identity_symmetry_witness :
    calculate_biometric_match [(1 : ℝ) / 4] [(1 : ℝ) / 4] = some 1 ∧
    calculate_biometric_match [(0 : ℝ)] [(1 : ℝ), 2] =
      calculate_biometric_match [(1 : ℝ), 2] [(0 : ℝ)] :=
  ⟨C9_identity_symmetry.1 [(1 : ℝ) / 4] (by simp), C9_identity_symmetry.2 _ _⟩
/-- C9 counterexample: `similarity(v, v) == 1.0` fails at `v = []`, where the
code raises `ZeroDivisionError` and returns no value. -/
theorem C9_counterexample : ¬ calculate_biometric_match ([] : List ℝ) [] = some 1 := by
  rw [calculate_biometric_match_nil]
  simp
/-- C10 (amended): every generated template has exactly 10 entries and each
entry lies in the closed interval `[0, 1]` — not the claimed `[0, 1)`,
because `round(x, 6)` can round a draw close to 1 up to exactly `1.0`. -/
theorem C10_template_shape (g : ℕ → ℝ) (h : ∀ i, 0 ≤ g i ∧ g i < 1) :
    (generate_biometric_vec g).length = 10 ∧
    ∀ x ∈ generate_biometric_vec g, 0 ≤ x ∧ x ≤ 1 := by
  refine ⟨generate_biometric_vec_length g, ?_⟩
  intro x hx
  unfold generate_biometric_vec at hx
  obtain ⟨i, _, rfl⟩ := List.mem_map.mp hx
  exact ⟨pyround_nonneg (h i).1, pyround_le_one (le_of_lt (h i).2)⟩
/-- C10 witness: the all-`1/4` stream gives a 10-entry template within
`[0, 1]`. -/
theorem C10_template_shape_witness :
    (generate_biometric_vec gQ).length = 10 ∧
    ∀ x ∈ generate_biometric_vec gQ, 0 ≤ x ∧ x ≤ 1 :=
  C10_template_shape gQ (fun _ => by constructor <;> norm_num [gQ])
/-- C10 counterexample: the stream constantly drawing `0.9999999 ∈ [0, 1)`
produces the template value `1.0`, which is not `< 1` — the claimed interval
`[0, 1)` fails. -/
theorem C10_counterexample :
    (∀ i : ℕ, 0 ≤ gBad i ∧ gBad i < 1) ∧
    (1 : ℝ) ∈ generate_biometric_vec gBad ∧ ¬ ((1 : ℝ) < 1) := by
  refine ⟨fun i => by constructor <;> norm_num [gBad], ?_, by norm_num⟩
  have hvec : generate_biometric_vec gBad = (List.range 10).map (fun _ => (1 : ℝ)) := by
    unfold generate_biometric_vec gBad
    apply List.map_congr_left
    intro i _
    exact round6_gBad
  rw [hvec]
  exact List.mem_map.mpr ⟨0, List.mem_range.mpr (by norm_num), rfl⟩
end BioGate
